import Mathlib

/-!
Verification of the openLCA Sankey plugin backend (`src/backend/main.py`).

The backend is a thin HTTP facade over the openLCA IPC engine.  We embed its
request handlers as pure Lean functions over an environment record `Env` that
captures the engine's responses for one request (connection handle, entity
lookups, calculation state polling, computed impacts and the native Sankey
graph).  Python floats are modelled as rationals (`ℚ`), Python `None` as
`Option`, raised `HTTPException`s as the `Except.error` branch of an
`Except HTTPError _` result, and JSON responses as `JVal` values / key-value
lists.  Python truthiness of strings and numbers (`x or d`, `if s:`) is
modelled by the helpers `truthyStr`, `orQ` and `orElseStr`.
-/

set_option maxHeartbeats 1000000

namespace OLCA

/-- A JSON value, as produced by the FastAPI layer from Python dicts/lists. -/
inductive JVal where
  | null
  | str (s : String)
  | num (q : ℚ)
  | bool (b : Bool)
  | arr (a : List JVal)
  | obj (o : List (String × JVal))

/-- A raised `HTTPException`: status code and detail message. -/
structure HTTPError where
  status : Nat
  detail : String

/-- An `olca_schema.Ref` as the backend uses it: an id and a (possibly `None`)
name. -/
structure Ref where
  id : String
  name : Option String
deriving DecidableEq

/-- The state object returned by `result.get_state()`. -/
structure ResultState where
  is_ready : Bool
  error : Option String

/-- One entry of `result.get_total_impacts()`: an impact-category reference and
an amount, either possibly `None`. -/
structure TotalImpactValue where
  impact_category : Option Ref
  amount : Option ℚ

/-- A `TechFlow` of a Sankey node: provider process and flow references. -/
structure TechFlow where
  provider : Option Ref
  flow : Option Ref

/-- A node of the engine's native Sankey graph. -/
structure SankeyNode where
  index : Nat
  tech_flow : Option TechFlow
  direct_result : Option ℚ
  total_result : Option ℚ

/-- An edge of the engine's native Sankey graph. -/
structure SankeyEdge where
  provider_index : Nat
  node_index : Nat
  upstream_share : Option ℚ

/-- The engine's native Sankey graph. -/
structure SankeyGraph where
  nodes : List SankeyNode
  edges : List SankeyEdge
  root_index : Nat

/-- The `schema.SankeyRequest` configuration built by `get_sankey`. -/
structure SankeyRequest where
  impact_category : Ref
  max_nodes : Int
  min_share : ℚ

/-- A product system as far as the backend reads it: id (for `to_ref()`),
name and target amount. -/
structure ProductSystem where
  id : String
  name : Option String
  target_amount : Option ℚ

/-- The `schema.CalculationSetup` built by `get_sankey`. -/
structure CalculationSetup where
  target_id : String
  impact_method : Ref
  amount : ℚ

/-- A fully fetched impact category (only the field the backend reads). -/
structure ImpactCategoryFull where
  ref_unit : Option String

/-- A fully fetched impact method (only the field the backend reads). -/
structure MethodFull where
  impact_categories : List Ref

/-- The model types accepted by the `/api/descriptors/{model_type}` endpoint. -/
inductive ModelType where
  | productSystem
  | impactCategory
  | impactMethod
  | process
  | flow

/-- The engine as seen by one request: every IPC response the backend may
consume.  `connected` models whether `get_client()` yields a handle; `states`
models `result.get_state()` at the i-th poll of the polling loop. -/
structure Env where
  connected : Bool
  getProductSystem : String → Option ProductSystem
  getImpactMethodDescriptors : List Ref
  descriptorDicts : ModelType → List JVal
  getImpactCategoryFull : String → Option ImpactCategoryFull
  getImpactMethodFull : String → Option MethodFull
  calculate : CalculationSetup → Option String
  states : Nat → ResultState
  get_impact_categories : List Ref
  get_total_impacts : List TotalImpactValue
  get_total_impact_value_of : Ref → Option TotalImpactValue
  get_sankey_graph : SankeyRequest → Option SankeyGraph

/-- Python truthiness of an optional string (`if s:`): `False` for `None` and
for the empty string. -/
def truthyStr : Option String → Bool
  | some s => s != ""
  | none => false

/-- Python `x or d` for an optional float `x`: `d` when `x` is `None` or `0.0`. -/
def orQ (a : Option ℚ) (d : ℚ) : ℚ :=
  match a with
  | some x => if x ≠ 0 then x else d
  | none => d

/-- Python `s or d` for an optional string `s`: `d` when `s` is `None` or
empty. -/
def orElseStr (a : Option String) (d : String) : String :=
  match a with
  | some s => if s != "" then s else d
  | none => d

/-- A Python optional string as a JSON value (`None` becomes `null`). -/
def optStr : Option String → JVal
  | some s => JVal.str s
  | none => JVal.null

/-- Endpoint `get_status`: report connection status to openLCA. -/
def get_status (env : Env) : List (String × JVal) :=
  if !env.connected then
    [("status", JVal.str "disconnected")]
  else
    [("status", JVal.str "connected"), ("version", JVal.str "2.6.0")]

/-- The `type_map` of `get_descriptors`. -/
def type_map (model_type : String) : Option ModelType :=
  if model_type = "ProductSystem" then some ModelType.productSystem
  else if model_type = "ImpactCategory" then some ModelType.impactCategory
  else if model_type = "ImpactMethod" then some ModelType.impactMethod
  else if model_type = "Process" then some ModelType.process
  else if model_type = "Flow" then some ModelType.flow
  else none

/-- Endpoint `get_descriptors`: list descriptors for a model type. -/
def get_descriptors (env : Env) (model_type : String) : Except HTTPError JVal :=
  if !env.connected then .error ⟨503, "openLCA not connected"⟩
  else
    match type_map model_type with
    | none => .ok (JVal.arr [])
    | some t => .ok (JVal.arr (env.descriptorDicts t))

/-- The inner `try` block of `get_method_categories`: fetch the full impact
category of `cat_id` and read its `ref_unit`, defaulting to `""`. -/
def fetch_ref_unit (env : Env) (cat_id : String) : String :=
  match env.getImpactCategoryFull cat_id with
  | some full_cat =>
    match full_cat.ref_unit with
    | some u => if u != "" then u else ""
    | none => ""
  | none => ""

/-- Endpoint `get_method_categories`: impact categories of a method, with `refUnit`. -/
def get_method_categories (env : Env) (method_id : String) : Except HTTPError JVal :=
  if !env.connected then .error ⟨503, "openLCA not connected"⟩
  else
    match env.getImpactMethodFull method_id with
    | none => .ok (JVal.arr [])
    | some method =>
      .ok (JVal.arr (method.impact_categories.map (fun cat_ref =>
        JVal.obj [("@id", JVal.str cat_ref.id),
                  ("name", optStr cat_ref.name),
                  ("refUnit", JVal.str (fetch_ref_unit env cat_ref.id))])))

/-- Helper `_empty_result`: the fallback JSON body of the Sankey endpoint. -/
def _empty_result : List (String × JVal) :=
  [("nodes", JVal.arr []),
   ("links", JVal.arr []),
   ("totalImpact", JVal.num 0),
   ("impactUnit", JVal.str ""),
   ("impactCategory", JVal.str ""),
   ("rootIndex", JVal.num 0)]

/-- Python truthiness of `state.error` (`if state.error:`). -/
def errTruthy (e : Option String) : Bool :=
  match e with
  | some s => s != ""
  | none => false

/-- The `while waited < max_wait` loop of `_wait_for_result`.  `i` counts the
polls performed so far, so `waited = i * 0.5`; `fuel` is a structural bound on
the remaining iterations (the loop guard, not the fuel, is what terminates the
loop when the fuel is at least `240 - i`, see the fuel-insensitivity theorem). -/
def wait_loop (getState : Nat → ResultState) (max_wait : ℚ) : Nat → Nat → Except HTTPError Nat
  | _, 0 => .error ⟨504, "Calculation timed out"⟩
  | i, fuel + 1 =>
    if (i : ℚ) * (1 / 2) < max_wait then
      let state := getState i
      if state.is_ready then .ok i
      else if errTruthy state.error then
        .error ⟨500, "Calculation error: " ++ state.error.getD ""⟩
      else wait_loop getState max_wait (i + 1) fuel
    else .error ⟨504, "Calculation timed out"⟩

/-- Helper `_wait_for_result` with its default `max_wait = 120` seconds: at most 240
polls, one every 0.5 s.  Returns the number of the poll that saw readiness. -/
def _wait_for_result (getState : Nat → ResultState) : Except HTTPError Nat :=
  wait_loop getState 120 0 240

/-- The `impacts_by_id` dict of `_resolve_impact_category`, as a lookup
function with the `dict.get(_, 0.0)` default built in; a `None` amount counts
as `0.0`, later entries for the same id overwrite earlier ones. -/
def impacts_by_id (tis : List TotalImpactValue) : String → ℚ :=
  tis.foldl
    (fun m ti =>
      match ti.impact_category with
      | some ic => fun k => if k = ic.id then orQ ti.amount 0 else m k
      | none => m)
    (fun _ => 0)

/-- The body of the auto-selection loop of `_resolve_impact_category`: keep
the running `(best_cat, best_amount)` unless this category's absolute total
impact is strictly larger. -/
def select_step (tis : List TotalImpactValue) (acc : Option Ref × ℚ) (cat : Ref) :
    Option Ref × ℚ :=
  let amount := |impacts_by_id tis cat.id|
  if acc.2 < amount then (some cat, amount) else acc

/-- The auto-selection half of `_resolve_impact_category`: scan the categories
keeping the one with the largest absolute total impact (strictly larger than
the running best, which starts at `0.0`), falling back to the first category. -/
def auto_select (tis : List TotalImpactValue) (impact_cats : List Ref) : Option Ref :=
  match impact_cats.foldl (select_step tis) (none, 0) with
  | (some best_cat, _) => some best_cat
  | (none, _) => impact_cats.head?

/-- Helper `_resolve_impact_category`: user-selected id if it matches, otherwise
auto-selected by largest absolute total impact. -/
def _resolve_impact_category (env : Env) (impact_cats : List Ref)
    (impact_category_id : Option String) : Option Ref :=
  if truthyStr impact_category_id then
    match impact_cats.find? (fun cat => cat.id == impact_category_id.getD "") with
    | some cat => some cat
    | none => auto_select env.get_total_impacts impact_cats
  else auto_select env.get_total_impacts impact_cats

/-- Helper `_get_ref_unit`: reference unit of an impact category, `""` on failure. -/
def _get_ref_unit (env : Env) (impact_ref : Ref) : String :=
  match env.getImpactCategoryFull impact_ref.id with
  | some full_cat =>
    match full_cat.ref_unit with
    | some u => if u != "" then u else ""
    | none => ""
  | none => ""

/-- The method-resolution block of `get_sankey` (source lines 226-233): the
first descriptor whose id equals the supplied `impact_method_id`, else the
first descriptor.  The caller guarantees the descriptor list `m0 :: rest` is
non-empty, as the source does before indexing `impact_methods[0]`. -/
def resolve_method_ref (m0 : Ref) (rest : List Ref) (impact_method_id : Option String) : Ref :=
  let found :=
    if truthyStr impact_method_id then
      (m0 :: rest).find? (fun m => m.id == impact_method_id.getD "")
    else none
  match found with
  | some m => ⟨m.id, m.name⟩
  | none => ⟨m0.id, m0.name⟩

/-- The divisor `abs_total` of the response shaping: `abs(total_impact)` when nonzero,
else `1.0`. -/
def abs_total_of (total_impact : ℚ) : ℚ :=
  if total_impact ≠ 0 then |total_impact| else 1

/-- One entry of `nodes_data`: the per-node dict built by the node loop of
`get_sankey`. -/
def node_data (abs_total : ℚ) (root_index : Nat) (node : SankeyNode) : List (String × JVal) :=
  let provider_name :=
    match node.tech_flow with
    | some tf =>
      match tf.provider with
      | some p => orElseStr p.name "Unknown"
      | none => "Unknown"
    | none => "Unknown"
  let flow_name :=
    match node.tech_flow with
    | some tf =>
      match tf.flow with
      | some f => orElseStr f.name ""
      | none => ""
    | none => ""
  let process_id :=
    match node.tech_flow with
    | some tf =>
      match tf.provider with
      | some p => p.id
      | none => ""
    | none => ""
  let direct := orQ node.direct_result 0
  let upstream := orQ node.total_result 0
  [("name", JVal.str provider_name),
   ("flowName", JVal.str flow_name),
   ("direct", JVal.num direct),
   ("upstream", JVal.num upstream),
   ("directPct", JVal.num (if abs_total ≠ 0 then |direct / abs_total| * 100 else 0)),
   ("upstreamPct", JVal.num (if abs_total ≠ 0 then |upstream / abs_total| * 100 else 0)),
   ("processId", JVal.str process_id),
   ("isRoot", JVal.bool (node.index == root_index))]

/-- The `nodes_data` list: every graph node shaped in order. -/
def nodes_data (abs_total : ℚ) (g : SankeyGraph) : List (List (String × JVal)) :=
  g.nodes.map (node_data abs_total g.root_index)

/-- The `index_to_pos` dict restricted to the nodes from position `i` on:
later insertions win, as in a Python dict filled left to right. -/
def index_to_pos_from : Nat → List SankeyNode → Nat → Option Nat
  | _, [], _ => none
  | i, node :: rest, k =>
    match index_to_pos_from (i + 1) rest k with
    | some j => some j
    | none => if k = node.index then some i else none

/-- The `index_to_pos` dict of `get_sankey`: graph node index to position in
`nodes_data`. -/
def index_to_pos (nodes : List SankeyNode) : Nat → Option Nat :=
  index_to_pos_from 0 nodes

/-- One edge of the edge loop of `get_sankey`: `some` link dict when both
endpoints are known positions and distinct, `none` when the edge is dropped. -/
def link_data (abs_total : ℚ) (i2p : Nat → Option Nat) (edge : SankeyEdge) :
    Option (List (String × JVal)) :=
  match i2p edge.provider_index, i2p edge.node_index with
  | some source_pos, some target_pos =>
    if source_pos ≠ target_pos then
      let share := orQ edge.upstream_share 0
      let value := if abs_total ≠ 0 then |share * abs_total| else 1 / 1000
      some [("source", JVal.num source_pos),
            ("target", JVal.num target_pos),
            ("value", JVal.num value),
            ("share", JVal.num share)]
    else none
  | _, _ => none

/-- The `links_data` list: kept links in edge order. -/
def links_data (abs_total : ℚ) (i2p : Nat → Option Nat) (edges : List SankeyEdge) :
    List (List (String × JVal)) :=
  edges.filterMap (link_data abs_total i2p)

/-- The final JSON body returned by `get_sankey` on the success path. -/
def sankey_response (total_impact : ℚ) (ref_unit : String) (target_impact : Ref)
    (g : SankeyGraph) : List (String × JVal) :=
  let abs_total := abs_total_of total_impact
  let i2p := index_to_pos g.nodes
  [("nodes", JVal.arr ((nodes_data abs_total g).map JVal.obj)),
   ("links", JVal.arr ((links_data abs_total i2p g.edges).map JVal.obj)),
   ("totalImpact", JVal.num total_impact),
   ("impactUnit", JVal.str (if ref_unit != "" then ref_unit
                            else orElseStr target_impact.name "impact")),
   ("impactCategory", optStr target_impact.name),
   ("rootIndex", JVal.num ((i2p g.root_index).getD 0 : Nat))]

/-- The `total_impact` computation of `get_sankey` (source lines 270-271):
`total_impact_value.amount if total_impact_value and total_impact_value.amount
else 0.0`. -/
def total_impact_of (env : Env) (target_impact : Ref) : ℚ :=
  match env.get_total_impact_value_of target_impact with
  | some tiv => orQ tiv.amount 0
  | none => 0

/-- The tail of `get_sankey` (source lines 252-351): everything done with the
ready calculation result — impact-category resolution, total impact, reference
unit, native Sankey graph fetch and response shaping.  The `SankeyRequest`
carries `min_share / 100` because the API expects a fraction while the UI
sends a percentage. -/
def sankey_of_result (env : Env) (impact_category_id : Option String)
    (max_nodes : Int) (min_share : ℚ) : Except HTTPError (List (String × JVal)) :=
  match env.get_impact_categories with
  | [] => .ok _empty_result
  | c0 :: cs =>
    match _resolve_impact_category env (c0 :: cs) impact_category_id with
    | none => .ok _empty_result
    | some target_impact =>
      match env.get_sankey_graph ⟨target_impact, max_nodes, min_share / 100⟩ with
      | none => .ok _empty_result
      | some g =>
        if g.nodes.isEmpty then .ok _empty_result
        else .ok (sankey_response (total_impact_of env target_impact)
                    (_get_ref_unit env target_impact) target_impact g)

/-- Endpoint `get_sankey`, serving the Sankey route for a system id.  The calculation
setup targets the loaded system with the resolved method and the system's
target amount (`or 1.0`). -/
def get_sankey (env : Env) (system_id : String)
    (impact_method_id : Option String) (impact_category_id : Option String)
    (max_nodes : Int) (min_share : ℚ) : Except HTTPError (List (String × JVal)) :=
  if !env.connected then .error ⟨503, "openLCA not connected"⟩
  else
    match env.getProductSystem system_id with
    | none => .error ⟨404, "Product system not found"⟩
    | some system =>
      match env.getImpactMethodDescriptors with
      | [] => .ok _empty_result
      | m0 :: rest =>
        if errTruthy (env.calculate
            ⟨system.id, resolve_method_ref m0 rest impact_method_id,
             orQ system.target_amount 1⟩) then .ok _empty_result
        else
          match _wait_for_result env.states with
          | .error e => .error e
          | .ok _ => sankey_of_result env impact_category_id max_nodes min_share

/-- Endpoint `get_graph`: the backward-compatibility endpoint, delegating with the
query-parameter defaults of `get_sankey`. -/
def get_graph (env : Env) (system_id : String) : Except HTTPError (List (String × JVal)) :=
  get_sankey env system_id none none 25 0

/-! ### Concrete environments and graphs used by the witness theorems below -/

/-- A fully inert engine environment, specialised per witness below. -/
def baseEnv : Env where
  connected := true
  getProductSystem := fun _ => none
  getImpactMethodDescriptors := []
  descriptorDicts := fun _ => []
  getImpactCategoryFull := fun _ => none
  getImpactMethodFull := fun _ => none
  calculate := fun _ => none
  states := fun _ => ⟨true, none⟩
  get_impact_categories := []
  get_total_impacts := []
  get_total_impact_value_of := fun _ => none
  get_sankey_graph := fun _ => none

def envC1 : Env :=
  { baseEnv with
    get_total_impacts :=
      [⟨some ⟨"a", none⟩, some 2⟩, ⟨some ⟨"b", none⟩, some (-5)⟩] }

def catsC1 : List Ref := [⟨"a", none⟩, ⟨"b", none⟩]

def envC5 : Env :=
  { baseEnv with
    get_total_impacts := [⟨some ⟨"b", none⟩, some 99⟩] }

def statesReadyAt3 : Nat → ResultState := fun k =>
  if k < 3 then ⟨false, none⟩ else ⟨true, none⟩

def statesNeverReady : Nat → ResultState := fun _ => ⟨false, none⟩

def envC4 : Env :=
  { baseEnv with
    getProductSystem := fun _ => some ⟨"sys", none, none⟩
    getImpactMethodDescriptors := [⟨"m", some "M"⟩]
    calculate := fun _ => some "boom" }

def envC4poll : Env :=
  { baseEnv with
    getProductSystem := fun _ => some ⟨"sys", none, none⟩
    getImpactMethodDescriptors := [⟨"m", some "M"⟩]
    states := fun k => if k = 0 then ⟨false, some "bad"⟩ else ⟨true, none⟩ }

/-- The six keys of every non-error Sankey response body. -/
def response_keys : List String :=
  ["nodes", "links", "totalImpact", "impactUnit", "impactCategory", "rootIndex"]

def envC6 : Env :=
  { baseEnv with getProductSystem := fun _ => some ⟨"sys", none, none⟩ }

def envC7 : Env := { baseEnv with connected := false }

def envC10 : Env :=
  { baseEnv with getProductSystem := fun _ => some ⟨"sys", none, none⟩ }

def gC2 : SankeyGraph := ⟨[⟨0, none, some 1, some 1⟩], [], 0⟩

def gC2w : SankeyGraph := ⟨[⟨0, none, some 3, some 4⟩], [], 0⟩

def gC8 : SankeyGraph :=
  ⟨[⟨10, none, none, none⟩, ⟨20, none, none, none⟩], [⟨10, 20, some (1 / 2)⟩], 10⟩

def linkC8 : List (String × JVal) :=
  [("source", JVal.num 0), ("target", JVal.num 1),
   ("value", JVal.num (|(1 / 2 : ℚ) * abs_total_of 7|)),
   ("share", JVal.num (1 / 2))]

/-! ### Lemmas about the auto-selection fold of `_resolve_impact_category` -/

lemma select_step_snd_le (tis : List TotalImpactValue) (acc : Option Ref × ℚ) (cat : Ref) :
    acc.2 ≤ (select_step tis acc cat).2 := by
  unfold select_step
  dsimp only
  split
  · exact le_of_lt (by assumption)
  · exact le_refl _

lemma select_step_amt_le (tis : List TotalImpactValue) (acc : Option Ref × ℚ) (cat : Ref) :
    |impacts_by_id tis cat.id| ≤ (select_step tis acc cat).2 := by
  unfold select_step
  dsimp only
  split
  · exact le_refl _
  · exact le_of_not_lt (by assumption)

lemma foldl_select_le (tis : List TotalImpactValue) (l : List Ref) :
    ∀ acc : Option Ref × ℚ,
      acc.2 ≤ (l.foldl (select_step tis) acc).2 ∧
      ∀ c ∈ l, |impacts_by_id tis c.id| ≤ (l.foldl (select_step tis) acc).2 := by
  induction l with
  | nil => intro acc; exact ⟨le_refl _, by simp⟩
  | cons c l ih =>
    intro acc
    have h := ih (select_step tis acc c)
    refine ⟨le_trans (select_step_snd_le tis acc c) h.1, ?_⟩
    intro c' hc'
    rcases List.mem_cons.mp hc' with rfl | hc'
    · exact le_trans (select_step_amt_le tis acc c') h.1
    · exact h.2 c' hc'

lemma foldl_select_cases (tis : List TotalImpactValue) (l : List Ref) :
    ∀ acc : Option Ref × ℚ,
      l.foldl (select_step tis) acc = acc ∨
      ∃ c ∈ l, l.foldl (select_step tis) acc = (some c, |impacts_by_id tis c.id|) := by
  induction l with
  | nil => intro acc; exact Or.inl rfl
  | cons c l ih =>
    intro acc
    by_cases h : acc.2 < |impacts_by_id tis c.id|
    · have hstep : select_step tis acc c = (some c, |impacts_by_id tis c.id|) := by
        unfold select_step; dsimp only; rw [if_pos h]
      rcases ih (select_step tis acc c) with h' | ⟨c', hc', h'⟩
      · right
        exact ⟨c, List.mem_cons_self c l, by rw [List.foldl_cons, h', hstep]⟩
      · right
        exact ⟨c', List.mem_cons_of_mem c hc', by rw [List.foldl_cons, h']⟩
    · have hstep : select_step tis acc c = acc := by
        unfold select_step; dsimp only; rw [if_neg h]
      rcases ih (select_step tis acc c) with h' | ⟨c', hc', h'⟩
      · left; rw [List.foldl_cons, h', hstep]
      · right
        exact ⟨c', List.mem_cons_of_mem c hc', by rw [List.foldl_cons, h']⟩

lemma foldl_select_const (tis : List TotalImpactValue) (l : List Ref) :
    ∀ acc : Option Ref × ℚ,
      (∀ c ∈ l, |impacts_by_id tis c.id| ≤ acc.2) →
      l.foldl (select_step tis) acc = acc := by
  induction l with
  | nil => intro acc _; rfl
  | cons c l ih =>
    intro acc h
    have hstep : select_step tis acc c = acc := by
      unfold select_step; dsimp only
      rw [if_neg (not_lt.mpr (h c (List.mem_cons_self c l)))]
    rw [List.foldl_cons, hstep]
    exact ih acc (fun c' hc' => h c' (List.mem_cons_of_mem c hc'))

lemma auto_select_max (tis : List TotalImpactValue) (impact_cats : List Ref)
    (hne : impact_cats ≠ []) :
    ∃ best, auto_select tis impact_cats = some best ∧ best ∈ impact_cats ∧
      ∀ cat ∈ impact_cats,
        |impacts_by_id tis cat.id| ≤ |impacts_by_id tis best.id| := by
  have hle := foldl_select_le tis impact_cats (none, 0)
  rcases foldl_select_cases tis impact_cats (none, 0) with h | ⟨c, hc, h⟩
  · obtain ⟨c0, l, rfl⟩ := List.exists_cons_of_ne_nil hne
    refine ⟨c0, ?_, List.mem_cons_self c0 l, ?_⟩
    · unfold auto_select; rw [h]; rfl
    · intro cat hcat
      have h1 := hle.2 cat hcat
      rw [h] at h1
      exact le_trans h1 (abs_nonneg _)
  · refine ⟨c, ?_, hc, ?_⟩
    · unfold auto_select; rw [h]
    · intro cat hcat
      have h1 := hle.2 cat hcat
      rw [h] at h1
      exact h1

lemma auto_select_all_zero (tis : List TotalImpactValue) (impact_cats : List Ref)
    (hz : ∀ cat ∈ impact_cats, |impacts_by_id tis cat.id| = 0) :
    auto_select tis impact_cats = impact_cats.head? := by
  have h : impact_cats.foldl (select_step tis) (none, 0) = (none, 0) :=
    foldl_select_const tis impact_cats (none, 0)
      (fun c hc => le_of_eq (hz c hc))
  unfold auto_select
  rw [h]

lemma resolve_eq_auto (env : Env) (impact_cats : List Ref) (cid : Option String)
    (hauto : truthyStr cid = false ∨
      impact_cats.find? (fun cat => cat.id == cid.getD "") = none) :
    _resolve_impact_category env impact_cats cid =
      auto_select env.get_total_impacts impact_cats := by
  unfold _resolve_impact_category
  rcases hauto with h | h
  · rw [h]; simp
  · by_cases ht : truthyStr cid
    · rw [ht]; simp only [if_true, h]
    · simp only [ht, Bool.false_eq_true, if_false]

/-- C1: when no explicit impact category id is supplied (or none matches),
`_resolve_impact_category` returns a category of the given list whose absolute
total impact amount (taken from the result's total impacts, missing or `None`
amounts counting as `0.0`) is largest; and for a non-empty list whose
categories all have absolute total impact `0`, it returns the first category. -/
theorem C1_auto_selection (env : Env) (impact_cats : List Ref) (cid : Option String)
    (hne : impact_cats ≠ [])
    (hauto : truthyStr cid = false ∨
      impact_cats.find? (fun cat => cat.id == cid.getD "") = none) :
    (∃ best, _resolve_impact_category env impact_cats cid = some best ∧
        best ∈ impact_cats ∧
        ∀ cat ∈ impact_cats,
          |impacts_by_id env.get_total_impacts cat.id| ≤
            |impacts_by_id env.get_total_impacts best.id|) ∧
    ((∀ cat ∈ impact_cats, |impacts_by_id env.get_total_impacts cat.id| = 0) →
      _resolve_impact_category env impact_cats cid = impact_cats.head?) := by
  rw [resolve_eq_auto env impact_cats cid hauto]
  exact ⟨auto_select_max _ _ hne, auto_select_all_zero _ _⟩

theorem C1_auto_selection_witness :
    (∃ best, _resolve_impact_category envC1 catsC1 none = some best ∧
        best ∈ catsC1 ∧
        ∀ cat ∈ catsC1,
          |impacts_by_id envC1.get_total_impacts cat.id| ≤
            |impacts_by_id envC1.get_total_impacts best.id|) ∧
    ((∀ cat ∈ catsC1, |impacts_by_id envC1.get_total_impacts cat.id| = 0) →
      _resolve_impact_category envC1 catsC1 none = catsC1.head?) :=
  C1_auto_selection envC1 catsC1 none (by decide) (Or.inl rfl)

/-- C5: when the explicitly supplied impact category id matches some category,
`_resolve_impact_category` returns the first matching category, whatever the
total impact amounts held by the environment are. -/
theorem C5_explicit_id (env : Env) (impact_cats : List Ref) (cid : String) (c : Ref)
    (hc : cid ≠ "")
    (hfind : impact_cats.find? (fun cat => cat.id == cid) = some c) :
    _resolve_impact_category env impact_cats (some cid) = some c := by
  unfold _resolve_impact_category
  have ht : truthyStr (some cid) = true := by
    simp [truthyStr, hc]
  rw [ht]
  simp only [if_true, Option.getD_some, hfind]

theorem C5_explicit_id_witness :
    _resolve_impact_category envC5 [⟨"a", none⟩, ⟨"b", none⟩] (some "a") =
      some ⟨"a", none⟩ :=
  C5_explicit_id envC5 [⟨"a", none⟩, ⟨"b", none⟩] "a" ⟨"a", none⟩ (by decide) rfl

/-! ### Lemmas about the polling loop of `_wait_for_result` -/

lemma wait_guard_iff (i : Nat) : ((i : ℚ) * (1 / 2) < 120) ↔ i < 240 := by
  constructor
  · intro h
    by_contra h'
    push_neg at h'
    have h'' : (240 : ℚ) ≤ (i : ℚ) := by exact_mod_cast h'
    linarith
  · intro h
    have h' : (i : ℚ) < 240 := by exact_mod_cast h
    linarith

lemma wait_loop_fuel_eq (g : Nat → ResultState) :
    ∀ fuel₁ fuel₂ i, 240 ≤ i + fuel₁ → 240 ≤ i + fuel₂ →
      wait_loop g 120 i fuel₁ = wait_loop g 120 i fuel₂ := by
  intro fuel₁
  induction fuel₁ with
  | zero =>
    intro fuel₂ i h1 h2
    cases fuel₂ with
    | zero => rfl
    | succ f =>
      have hi : ¬ ((i : ℚ) * (1 / 2) < 120) := by
        rw [wait_guard_iff]; omega
      simp only [wait_loop]
      rw [if_neg hi]
  | succ f₁ ih =>
    intro fuel₂ i h1 h2
    cases fuel₂ with
    | zero =>
      have hi : ¬ ((i : ℚ) * (1 / 2) < 120) := by
        rw [wait_guard_iff]; omega
      simp only [wait_loop]
      rw [if_neg hi]
    | succ f₂ =>
      simp only [wait_loop]
      by_cases hg : (i : ℚ) * (1 / 2) < 120
      · rw [if_pos hg, if_pos hg]
        by_cases hr : (g i).is_ready
        · rw [if_pos hr, if_pos hr]
        · rw [if_neg hr, if_neg hr]
          by_cases he : errTruthy (g i).error
          · rw [if_pos he, if_pos he]
          · rw [if_neg he, if_neg he]
            exact ih f₂ (i + 1) (by omega) (by omega)
      · rw [if_neg hg, if_neg hg]

lemma wait_loop_ok (g : Nat → ResultState) (j : Nat) (hj : j < 240)
    (hready : (g j).is_ready = true)
    (hbefore : ∀ k, k < j → (g k).is_ready = false ∧ errTruthy (g k).error = false) :
    ∀ fuel i, i ≤ j → i + fuel = 240 → wait_loop g 120 i fuel = .ok j := by
  intro fuel
  induction fuel with
  | zero => intro i hi hsum; omega
  | succ f ih =>
    intro i hi hsum
    have hg : (i : ℚ) * (1 / 2) < 120 := (wait_guard_iff i).mpr (by omega)
    simp only [wait_loop]
    rw [if_pos hg]
    rcases Nat.lt_or_ge i j with hij | hij
    · obtain ⟨h1, h2⟩ := hbefore i hij
      rw [h1, h2]
      simp only [Bool.false_eq_true, if_false]
      exact ih (i + 1) (by omega) (by omega)
    · have hij' : i = j := le_antisymm hi hij
      subst hij'
      rw [hready]
      simp

lemma wait_loop_err (g : Nat → ResultState) (j : Nat) (s : String) (hj : j < 240)
    (hready : (g j).is_ready = false) (herr : (g j).error = some s) (hs : s ≠ "")
    (hbefore : ∀ k, k < j → (g k).is_ready = false ∧ errTruthy (g k).error = false) :
    ∀ fuel i, i ≤ j → i + fuel = 240 →
      wait_loop g 120 i fuel = .error ⟨500, "Calculation error: " ++ s⟩ := by
  intro fuel
  induction fuel with
  | zero => intro i hi hsum; omega
  | succ f ih =>
    intro i hi hsum
    have hg : (i : ℚ) * (1 / 2) < 120 := (wait_guard_iff i).mpr (by omega)
    simp only [wait_loop]
    rw [if_pos hg]
    rcases Nat.lt_or_ge i j with hij | hij
    · obtain ⟨h1, h2⟩ := hbefore i hij
      rw [h1, h2]
      simp only [Bool.false_eq_true, if_false]
      exact ih (i + 1) (by omega) (by omega)
    · have hij' : i = j := le_antisymm hi hij
      subst hij'
      rw [hready]
      have he : errTruthy (g i).error = true := by
        rw [herr]; simp [errTruthy, hs]
      rw [he]
      simp only [Bool.false_eq_true, if_false, if_true]
      rw [herr]
      rfl

lemma wait_loop_timeout (g : Nat → ResultState)
    (hall : ∀ k, k < 240 → (g k).is_ready = false ∧ errTruthy (g k).error = false) :
    ∀ fuel i, i + fuel = 240 →
      wait_loop g 120 i fuel = .error ⟨504, "Calculation timed out"⟩ := by
  intro fuel
  induction fuel with
  | zero => intro i hsum; rfl
  | succ f ih =>
    intro i hsum
    have hg : (i : ℚ) * (1 / 2) < 120 := (wait_guard_iff i).mpr (by omega)
    simp only [wait_loop]
    rw [if_pos hg]
    obtain ⟨h1, h2⟩ := hall i (by omega)
    rw [h1, h2]
    simp only [Bool.false_eq_true, if_false]
    exact ih (i + 1) (by omega)

/-- C3: `_wait_for_result` polls the state once per accrued 0.5 s of waiting
and, with its 120 s budget, performs at most 240 polls (the fuel argument is
irrelevant from 240 remaining iterations on); it returns normally at the first
ready poll, raises HTTP 500 carrying the engine's message at the first errored
poll, and raises HTTP 504 when all 240 polls see neither. -/
theorem C3_wait_polling (g : Nat → ResultState) :
    (∀ fuel₁ fuel₂ i, 240 ≤ i + fuel₁ → 240 ≤ i + fuel₂ →
        wait_loop g 120 i fuel₁ = wait_loop g 120 i fuel₂) ∧
    (∀ j, j < 240 →
        (∀ k, k < j → (g k).is_ready = false ∧ errTruthy (g k).error = false) →
        (g j).is_ready = true → _wait_for_result g = .ok j) ∧
    (∀ j s, j < 240 →
        (∀ k, k < j → (g k).is_ready = false ∧ errTruthy (g k).error = false) →
        (g j).is_ready = false → (g j).error = some s → s ≠ "" →
        _wait_for_result g = .error ⟨500, "Calculation error: " ++ s⟩) ∧
    ((∀ k, k < 240 → (g k).is_ready = false ∧ errTruthy (g k).error = false) →
        _wait_for_result g = .error ⟨504, "Calculation timed out"⟩) := by
  refine ⟨wait_loop_fuel_eq g, ?_, ?_, ?_⟩
  · intro j hj hbefore hready
    exact wait_loop_ok g j hj hready hbefore 240 0 (by omega) (by omega)
  · intro j s hj hbefore hready herr hs
    exact wait_loop_err g j s hj hready herr hs hbefore 240 0 (by omega) (by omega)
  · intro hall
    exact wait_loop_timeout g hall 240 0 (by omega)

/-! ### Calculation errors and the Sankey endpoint (C4) -/

/-- C4 counterexample: when the submitted calculation reports an error at
submission time, `get_sankey` answers with the normal empty-result JSON body
(HTTP 200), not with an HTTP 500 error response. -/
theorem C4_counterexample :
    errTruthy (envC4.calculate ⟨"sys", ⟨"m", some "M"⟩, 1⟩) = true ∧
    get_sankey envC4 "p" none none 25 0 = .ok _empty_result :=
  ⟨rfl, rfl⟩

/-- C4 (amended): calculation errors reported while polling are mapped to an
HTTP 500 response carrying the engine's message; calculation errors reported
at submission make the endpoint return the empty result (a normal HTTP 200
JSON body) instead. -/
theorem C4_calculation_errors (env : Env) (sid : String) (imid icid : Option String)
    (mn : Int) (msh : ℚ) (sys : ProductSystem) (m0 : Ref) (rest : List Ref)
    (hc : env.connected = true) (hs : env.getProductSystem sid = some sys)
    (hm : env.getImpactMethodDescriptors = m0 :: rest) :
    ((∀ s, errTruthy (env.calculate s) = true) →
      get_sankey env sid imid icid mn msh = .ok _empty_result) ∧
    (∀ j s, (∀ s', errTruthy (env.calculate s') = false) →
      j < 240 →
      (∀ k, k < j → (env.states k).is_ready = false ∧
        errTruthy (env.states k).error = false) →
      (env.states j).is_ready = false → (env.states j).error = some s → s ≠ "" →
      get_sankey env sid imid icid mn msh =
        .error ⟨500, "Calculation error: " ++ s⟩) := by
  constructor
  · intro hcalc
    unfold get_sankey
    rw [hc, hs, hm]
    simp [hcalc]
  · intro j s hcalc hj hbefore hready herr hs'
    unfold get_sankey
    rw [hc, hs, hm]
    simp only [Bool.not_true, Bool.false_eq_true, if_false]
    rw [hcalc]
    simp only [Bool.false_eq_true, if_false]
    have hw : _wait_for_result env.states = .error ⟨500, "Calculation error: " ++ s⟩ :=
      wait_loop_err env.states j s hj hready herr hs' hbefore 240 0 (by omega) (by omega)
    rw [hw]

theorem C4_calculation_errors_witness :
    get_sankey envC4poll "p" none none 25 0 =
      .error ⟨500, "Calculation error: " ++ "bad"⟩ :=
  (C4_calculation_errors envC4poll "p" none none 25 0 ⟨"sys", none, none⟩
      ⟨"m", some "M"⟩ [] rfl rfl rfl).2
    0 "bad" (fun _ => rfl) (by omega) (fun k hk => absurd hk (by omega)) rfl rfl
    (by decide)

/-! ### The shape of every 200 response of the Sankey endpoint (C6) -/

lemma sankey_of_result_keys (env : Env) (icid : Option String) (mn : Int) (msh : ℚ)
    (obj : List (String × JVal)) (h : sankey_of_result env icid mn msh = .ok obj) :
    obj.map Prod.fst = response_keys := by
  unfold sankey_of_result at h
  repeat' split at h
  all_goals (simp only [Except.ok.injEq] at h; subst h; rfl)

/-- C6: every non-error (HTTP 200) response of the Sankey endpoint, the
empty-result fallbacks included, is a JSON object with exactly the keys
`nodes`, `links`, `totalImpact`, `impactUnit`, `impactCategory`, `rootIndex`,
in this order. -/
theorem C6_response_shape (env : Env) (sid : String) (imid icid : Option String)
    (mn : Int) (msh : ℚ) (obj : List (String × JVal))
    (h : get_sankey env sid imid icid mn msh = .ok obj) :
    obj.map Prod.fst = response_keys := by
  unfold get_sankey at h
  repeat' split at h
  all_goals first
    | (simp only [Except.ok.injEq] at h; subst h; rfl)
    | simp at h
    | exact sankey_of_result_keys env icid mn msh obj h

theorem C6_response_shape_witness :
    _empty_result.map Prod.fst = response_keys :=
  C6_response_shape envC6 "p" none none 25 0 _empty_result rfl

/-! ### Disconnected engine (C7) -/

/-- C7: with no connection handle to the engine, the status endpoint reports
disconnected and the descriptor, method-category and Sankey endpoints fail
with HTTP 503 and the message `openLCA not connected` before any engine
operation. -/
theorem C7_disconnected (env : Env) (mt mid sid : String) (imid icid : Option String)
    (mn : Int) (msh : ℚ) (h : env.connected = false) :
    get_status env = [("status", JVal.str "disconnected")] ∧
    get_descriptors env mt = .error ⟨503, "openLCA not connected"⟩ ∧
    get_method_categories env mid = .error ⟨503, "openLCA not connected"⟩ ∧
    get_sankey env sid imid icid mn msh = .error ⟨503, "openLCA not connected"⟩ := by
  refine ⟨?_, ?_, ?_, ?_⟩ <;>
    simp [get_status, get_descriptors, get_method_categories, get_sankey, h]

theorem C7_disconnected_witness :
    get_status envC7 = [("status", JVal.str "disconnected")] ∧
    get_descriptors envC7 "Flow" = .error ⟨503, "openLCA not connected"⟩ ∧
    get_method_categories envC7 "m" = .error ⟨503, "openLCA not connected"⟩ ∧
    get_sankey envC7 "p" none none 25 0 = .error ⟨503, "openLCA not connected"⟩ :=
  C7_disconnected envC7 "Flow" "m" "p" none none 25 0 rfl

/-! ### Impact method resolution (C10) -/

/-- C10: with a non-empty descriptor list the endpoint always resolves a
method — the first descriptor matching the supplied id, or the first
descriptor when no id is supplied or none matches; with an empty descriptor
list the endpoint returns the empty result instead of calculating. -/
theorem C10_method_resolution (m0 : Ref) (rest : List Ref) (mid : Option String)
    (env : Env) (sid : String) (imid icid : Option String) (mn : Int) (msh : ℚ)
    (sys : ProductSystem) :
    ((∃ m, (m0 :: rest).find? (fun m' => m'.id == mid.getD "") = some m ∧
        truthyStr mid = true ∧
        resolve_method_ref m0 rest mid = ⟨m.id, m.name⟩) ∨
      ((truthyStr mid = false ∨
          (m0 :: rest).find? (fun m' => m'.id == mid.getD "") = none) ∧
        resolve_method_ref m0 rest mid = ⟨m0.id, m0.name⟩)) ∧
    (env.connected = true → env.getProductSystem sid = some sys →
      env.getImpactMethodDescriptors = [] →
      get_sankey env sid imid icid mn msh = .ok _empty_result) := by
  constructor
  · cases ht : truthyStr mid with
    | false => exact Or.inr ⟨Or.inl rfl, by simp [resolve_method_ref, ht]⟩
    | true =>
      cases hf : (m0 :: rest).find? (fun m' => m'.id == mid.getD "") with
      | none => exact Or.inr ⟨Or.inr rfl, by simp [resolve_method_ref, ht, hf]⟩
      | some m => exact Or.inl ⟨m, rfl, rfl, by simp [resolve_method_ref, ht, hf]⟩
  · intro hc hs hm
    unfold get_sankey
    rw [hc, hs, hm]
    simp

theorem C10_method_resolution_witness :
    ((∃ m, ([⟨"m1", some "M1"⟩, ⟨"m2", some "M2"⟩] :
          List Ref).find? (fun m' => m'.id == (some "m2").getD "") = some m ∧
        truthyStr (some "m2") = true ∧
        resolve_method_ref ⟨"m1", some "M1"⟩ [⟨"m2", some "M2"⟩] (some "m2") =
          ⟨m.id, m.name⟩) ∨
      ((truthyStr (some "m2") = false ∨
          ([⟨"m1", some "M1"⟩, ⟨"m2", some "M2"⟩] :
            List Ref).find? (fun m' => m'.id == (some "m2").getD "") = none) ∧
        resolve_method_ref ⟨"m1", some "M1"⟩ [⟨"m2", some "M2"⟩] (some "m2") =
          ⟨"m1", some "M1"⟩)) ∧
    (envC10.connected = true → envC10.getProductSystem "p" = some ⟨"sys", none, none⟩ →
      envC10.getImpactMethodDescriptors = [] →
      get_sankey envC10 "p" (some "m2") none 25 0 = .ok _empty_result) :=
  C10_method_resolution ⟨"m1", some "M1"⟩ [⟨"m2", some "M2"⟩] (some "m2")
    envC10 "p" (some "m2") none 25 0 ⟨"sys", none, none⟩

theorem C3_wait_polling_witness :
    _wait_for_result statesReadyAt3 = .ok 3 ∧
    _wait_for_result statesNeverReady = .error ⟨504, "Calculation timed out"⟩ :=
  ⟨(C3_wait_polling statesReadyAt3).2.1 3 (by decide)
      (fun k hk => by simp [statesReadyAt3, errTruthy, hk])
      (by simp [statesReadyAt3]),
   (C3_wait_polling statesNeverReady).2.2.2
      (fun k _ => ⟨rfl, rfl⟩)⟩

/-! ### The percentage and link-value divisor (C9, C2) -/

lemma abs_total_of_pos (t : ℚ) : 0 < abs_total_of t := by
  unfold abs_total_of
  split
  · exact abs_pos.mpr (by assumption)
  · norm_num

/-- C9: the divisor `abs_total` is strictly positive for every computed total
impact (`|totalImpact|` when nonzero, `1.0` otherwise), so the
division-by-zero guards of the response shaping always take their division
branch: percentages are the division formula (never the guarded `0`) and link
values are `|share * abs_total|` (never the guarded `0.001`). -/
theorem C9_abs_total_positive (t : ℚ) (r : Nat) (n : SankeyNode) :
    0 < abs_total_of t ∧
    (node_data (abs_total_of t) r n).lookup "directPct" =
      some (JVal.num (|orQ n.direct_result 0 / abs_total_of t| * 100)) ∧
    (node_data (abs_total_of t) r n).lookup "upstreamPct" =
      some (JVal.num (|orQ n.total_result 0 / abs_total_of t| * 100)) ∧
    (∀ q : ℚ, (if abs_total_of t ≠ 0 then |q * abs_total_of t| else 1 / 1000) =
      |q * abs_total_of t|) := by
  have hne : abs_total_of t ≠ 0 := ne_of_gt (abs_total_of_pos t)
  refine ⟨abs_total_of_pos t, ?_, ?_, fun q => if_pos hne⟩
  · show some (JVal.num (if abs_total_of t ≠ 0
        then |orQ n.direct_result 0 / abs_total_of t| * 100 else 0)) = _
    rw [if_pos hne]
  · show some (JVal.num (if abs_total_of t ≠ 0
        then |orQ n.total_result 0 / abs_total_of t| * 100 else 0)) = _
    rw [if_pos hne]

/-- C2 counterexample: with total impact `0` the shaping divides by the
fallback `abs_total = 1.0` and emits `directPct = 100` for a node with direct
result `1`, while the claimed formula `|direct / |totalImpact|| * 100`
evaluates to `0` there — the claim fails for total impact `0`. -/
theorem C2_zero_total_counterexample :
    (node_data (abs_total_of 0) 0 ⟨0, none, some 1, some 1⟩).lookup "directPct" =
      some (JVal.num (abs ((1 : ℚ) / abs_total_of 0) * 100)) ∧
    abs ((1 : ℚ) / abs_total_of 0) * 100 = 100 ∧
    ¬ (abs ((1 : ℚ) / abs (0 : ℚ)) * 100 = 100) := by
  refine ⟨?_, by norm_num [abs_total_of], by norm_num⟩
  show some (JVal.num (if abs_total_of 0 ≠ 0
      then |orQ (some 1) 0 / abs_total_of 0| * 100 else 0)) = _
  rw [if_pos (by norm_num [abs_total_of] : abs_total_of 0 ≠ 0)]
  norm_num [orQ]

/-- C2 (amended): every node emitted by the response shaping has
`directPct = |direct / abs_total| * 100` and
`upstreamPct = |upstream / abs_total| * 100`, where the divisor `abs_total`
is `|totalImpact|` when the total impact is nonzero and `1.0` when it is
zero — shares relative to the absolute total impact only when it is
nonzero. -/
theorem C2_percentages (t : ℚ) (g : SankeyGraph) (nd : List (String × JVal))
    (h : nd ∈ nodes_data (abs_total_of t) g) :
    ∃ node, node ∈ g.nodes ∧
      nd.lookup "direct" = some (JVal.num (orQ node.direct_result 0)) ∧
      nd.lookup "upstream" = some (JVal.num (orQ node.total_result 0)) ∧
      nd.lookup "directPct" =
        some (JVal.num (|orQ node.direct_result 0 / abs_total_of t| * 100)) ∧
      nd.lookup "upstreamPct" =
        some (JVal.num (|orQ node.total_result 0 / abs_total_of t| * 100)) ∧
      (t ≠ 0 → abs_total_of t = |t|) ∧ (t = 0 → abs_total_of t = 1) := by
  unfold nodes_data at h
  obtain ⟨node, hmem, rfl⟩ := List.mem_map.mp h
  have hne : abs_total_of t ≠ 0 := ne_of_gt (abs_total_of_pos t)
  refine ⟨node, hmem, rfl, rfl, ?_, ?_, ?_, ?_⟩
  · show some (JVal.num (if abs_total_of t ≠ 0
        then |orQ node.direct_result 0 / abs_total_of t| * 100 else 0)) = _
    rw [if_pos hne]
  · show some (JVal.num (if abs_total_of t ≠ 0
        then |orQ node.total_result 0 / abs_total_of t| * 100 else 0)) = _
    rw [if_pos hne]
  · intro ht; unfold abs_total_of; rw [if_pos ht]
  · intro ht; unfold abs_total_of; rw [if_neg (not_not_intro ht)]

theorem C2_percentages_witness :
    ∃ node, node ∈ gC2w.nodes ∧
      (node_data (abs_total_of 5) gC2w.root_index
          ⟨0, none, some 3, some 4⟩).lookup "direct" =
        some (JVal.num (orQ node.direct_result 0)) ∧
      (node_data (abs_total_of 5) gC2w.root_index
          ⟨0, none, some 3, some 4⟩).lookup "upstream" =
        some (JVal.num (orQ node.total_result 0)) ∧
      (node_data (abs_total_of 5) gC2w.root_index
          ⟨0, none, some 3, some 4⟩).lookup "directPct" =
        some (JVal.num (|orQ node.direct_result 0 / abs_total_of 5| * 100)) ∧
      (node_data (abs_total_of 5) gC2w.root_index
          ⟨0, none, some 3, some 4⟩).lookup "upstreamPct" =
        some (JVal.num (|orQ node.total_result 0 / abs_total_of 5| * 100)) ∧
      ((5 : ℚ) ≠ 0 → abs_total_of 5 = |(5 : ℚ)|) ∧
      ((5 : ℚ) = 0 → abs_total_of 5 = 1) :=
  C2_percentages 5 gC2w
    (node_data (abs_total_of 5) gC2w.root_index ⟨0, none, some 3, some 4⟩)
    (List.mem_singleton.mpr rfl)

/-! ### Link endpoint validity (C8) -/

lemma index_to_pos_from_lt (nodes : List SankeyNode) :
    ∀ i k j, index_to_pos_from i nodes k = some j → j < i + nodes.length := by
  induction nodes with
  | nil => intro i k j h; simp [index_to_pos_from] at h
  | cons node rest ih =>
    intro i k j h
    unfold index_to_pos_from at h
    split at h
    · rename_i j' heq
      injection h with h
      subst h
      have h2 := ih (i + 1) k j' heq
      simp only [List.length_cons]
      omega
    · split at h
      · injection h with h
        subst h
        simp only [List.length_cons]
        omega
      · exact absurd h (by simp)

lemma index_to_pos_lt (nodes : List SankeyNode) (k j : Nat)
    (h : index_to_pos nodes k = some j) : j < nodes.length := by
  have h' := index_to_pos_from_lt nodes 0 k j h
  omega

/-- C8: every link emitted by the response shaping has `source` and `target`
that are valid positions into the returned node list (strictly below the node
count) with `source ≠ target`; edges whose endpoint indices are unknown, and
self-loop edges, produce no link. -/
theorem C8_link_positions (t : ℚ) (g : SankeyGraph) (link : List (String × JVal))
    (h : link ∈ links_data (abs_total_of t) (index_to_pos g.nodes) g.edges) :
    ∃ sp tp : Nat, sp < g.nodes.length ∧ tp < g.nodes.length ∧ sp ≠ tp ∧
      link.lookup "source" = some (JVal.num sp) ∧
      link.lookup "target" = some (JVal.num tp) := by
  obtain ⟨edge, hmem, hf⟩ := List.mem_filterMap.mp h
  unfold link_data at hf
  split at hf
  · rename_i sp tp h1 h2
    split at hf
    · rename_i hsptp
      injection hf with hf
      subst hf
      exact ⟨sp, tp, index_to_pos_lt g.nodes edge.provider_index sp h1,
        index_to_pos_lt g.nodes edge.node_index tp h2, hsptp, rfl, rfl⟩
    · exact absurd hf (by simp)
  · exact absurd hf (by simp)



theorem C8_link_positions_witness :
    ∃ sp tp : Nat, sp < gC8.nodes.length ∧ tp < gC8.nodes.length ∧ sp ≠ tp ∧
      linkC8.lookup "source" = some (JVal.num sp) ∧
      linkC8.lookup "target" = some (JVal.num tp) :=
  C8_link_positions 7 gC8 linkC8
    (by norm_num [linkC8, gC8, links_data, link_data, index_to_pos,
      index_to_pos_from, orQ, abs_total_of])

end OLCA
